import Mathlib

/-!
Shallow embedding of the Tyroo assignment ETL pipeline.

The source is a small pandas/SQLAlchemy batch pipeline:
  - utils/data_processor.py : DataProcessor (read, clean, validate)
  - utils/database.py       : DatabaseManager (batched insert, audit logs)
  - data_processor.py       : DataProcessingPipeline (orchestrator)
  - config.py               : Config constants

A pandas DataFrame is modelled row-major: a header of column names,
a parallel list of column dtypes, and a list of rows of cells.  A cell
is an optional value (`none` models NaN/null).  Values are rationals
(pandas numerics), strings, or timestamps.  External pandas primitives
(drop_duplicates, fillna, median, mode, to_numeric) are embedded as
executable Lean functions with the semantics the source relies on.
-/

inductive Val where
  | num (q : ℚ)
  | str (s : String)
  | time (t : Nat)
deriving DecidableEq

abbrev Cell := Option Val

/-- Column dtype as the source distinguishes it: numeric (int64/float64),
object, or datetime. Downcast widths are not distinguished because the
source only downcasts value-preservingly. -/
inductive Dtype where
  | numT
  | objT
  | dtT
deriving DecidableEq

structure DF where
  header : List String
  dtypes : List Dtype
  rows : List (List Cell)
deriving DecidableEq

/-- pandas df.empty: no rows or no columns. -/
def DF.isEmptyDF (df : DF) : Bool := df.rows.isEmpty || df.header.isEmpty

namespace Config

/-- config.py: DOWNLOAD_PATH = "data/downloaded_data.csv.gz". -/
def DOWNLOAD_PATH : String := "data/downloaded_data.csv.gz"

/-- config.py: CHUNK_SIZE = 10000. -/
def CHUNK_SIZE : Nat := 10000

/-- config.py: BATCH_SIZE = 1000. -/
def BATCH_SIZE : Nat := 1000

end Config

/-- os.path.basename for forward-slash paths. -/
def basename (p : String) : String := (p.splitOn "/").getLastD p

/-- Auxiliary for drop_duplicates: keep elements not seen before. -/
def dedupFirstAux {α : Type} [DecidableEq α] (seen : List α) : List α → List α
  | [] => []
  | x :: xs => if x ∈ seen then dedupFirstAux seen xs else x :: dedupFirstAux (x :: seen) xs

/-- pandas DataFrame.drop_duplicates over full rows: keep the first
occurrence of each row, preserving order (NaN cells compare equal,
as in pandas duplicate detection). -/
def dedupFirst {α : Type} [DecidableEq α] (l : List α) : List α := dedupFirstAux [] l

/-- DataProcessor._remove_duplicates (utils/data_processor.py lines 94-99). -/
def remove_duplicates (df : DF) : DF := { df with rows := dedupFirst df.rows }

/-- Column j of a row-major table (cells of pandas df[column]). -/
def colCells (rows : List (List Cell)) (j : Nat) : List Cell :=
  rows.map (fun r => r.getD j none)

/-- Numeric values of a column, nulls skipped (pandas numeric ops skip NaN). -/
def numCells (cells : List Cell) : List ℚ :=
  cells.filterMap (fun c => match c with
    | some (Val.num q) => some q
    | _ => none)

def insertSorted (x : ℚ) : List ℚ → List ℚ
  | [] => [x]
  | y :: ys => if x ≤ y then x :: y :: ys else y :: insertSorted x ys

def sortRat (xs : List ℚ) : List ℚ := xs.foldr insertSorted []

/-- pandas Series.median over the non-null values: middle element of the
sorted values, or the mean of the two middle elements; NaN (none) when
there are no values. -/
def median (xs : List ℚ) : Option ℚ :=
  let s := sortRat xs
  let n := s.length
  if n = 0 then none
  else if n % 2 = 1 then some (s.getD (n / 2) 0)
  else some ((s.getD (n / 2 - 1) 0 + s.getD (n / 2) 0) / 2)

/-- Ordering used by pandas Series.mode to sort the modes ascending
(numbers, then strings, then timestamps). -/
def valLE : Val → Val → Bool
  | Val.num a, Val.num b => decide (a ≤ b)
  | Val.num _, _ => true
  | Val.str _, Val.num _ => false
  | Val.str a, Val.str b => decide (a ≤ b)
  | Val.str _, Val.time _ => true
  | Val.time a, Val.time b => decide (a ≤ b)
  | Val.time _, _ => false

def countVal (cells : List Cell) (v : Val) : Nat :=
  cells.countP (fun c => decide (c = some v))

/-- pandas Series.mode().iloc[0]: among the non-null values, the most
frequent one; ties broken by taking the least value (mode returns its
result sorted ascending).  `none` when the column has no non-null value
(mode is empty). -/
def modeFirst (cells : List Cell) : Option Val :=
  match dedupFirst (cells.filterMap id) with
  | [] => none
  | v :: rest => some (rest.foldl (fun best w =>
      if countVal cells best < countVal cells w ||
         (countVal cells w == countVal cells best && valLE w best) then w else best) v)

/-- Fill value chosen by DataProcessor._handle_missing_values for one
column: the median for int64/float64 columns, else the first mode, else
the literal "Unknown" when the column has no non-missing value. -/
def fillVal : Dtype → List Cell → Option Val
  | Dtype.numT, cells => (median (numCells cells)).map Val.num
  | _, cells =>
      match modeFirst cells with
      | some v => some v
      | none => some (Val.str "Unknown")

/-- Series.fillna on one cell: nulls become the fill value (a NaN fill
value, from the median of an all-null numeric column, leaves the null). -/
def imputeCell (fv : Option Val) (c : Cell) : Cell :=
  match c with
  | none => fv
  | some v => some v

/-- Per-column fill values of a table, one per header column. -/
def fillVals (df : DF) : List (Option Val) :=
  (List.range df.header.length).map
    (fun j => fillVal (df.dtypes.getD j Dtype.objT) (colCells df.rows j))

/-- DataProcessor._handle_missing_values (utils/data_processor.py lines
101-116): fill each column independently with its median (numeric dtype)
or first mode / "Unknown" (other dtypes). -/
def handle_missing_values (df : DF) : DF :=
  { df with rows := df.rows.map (fun r => (fillVals df).zipWith imputeCell r) }

/-- The provenance columns skipped by type coercion
(utils/data_processor.py lines 120-121). -/
def provNames : List String := ["source_file", "processing_batch", "created_at", "updated_at"]

def digitsToNat (s : List Char) : Option Nat :=
  if s.isEmpty then none
  else s.foldl (fun acc c =>
    acc.bind (fun n => if c.isDigit then some (n * 10 + (c.toNat - 48)) else none)) (some 0)

/-- Strip leading and trailing spaces from a character list. -/
def trimSpaces (s : List Char) : List Char :=
  ((s.dropWhile (fun c => c = ' ')).reverse.dropWhile (fun c => c = ' ')).reverse

/-- Split a character list at the dots. -/
def splitDotAux (acc : List Char) : List Char → List (List Char)
  | [] => [acc.reverse]
  | c :: cs => if c = '.' then acc.reverse :: splitDotAux [] cs else splitDotAux (c :: acc) cs

/-- pandas pd.to_numeric string parsing for plain decimal notation:
optional surrounding spaces, optional sign, integer digits, optional
fractional digits; anything else fails to parse. -/
def parseRat (s : String) : Option ℚ :=
  let t := trimSpaces s.data
  let signed : Bool × List Char :=
    match t with
    | '-' :: r => (true, r)
    | '+' :: r => (false, r)
    | r => (false, r)
  match splitDotAux [] signed.2 with
  | [intPart] =>
      (digitsToNat intPart).map (fun n =>
        if signed.1 then mkRat (-(n : Int)) 1 else mkRat (n : Int) 1)
  | [intPart, fracPart] =>
      match digitsToNat intPart, digitsToNat fracPart with
      | some i, some f =>
          let den := 10 ^ fracPart.length
          let num : Int := (i * den + f : Nat)
          some (if signed.1 then mkRat (-num) den else mkRat num den)
      | _, _ => none
  | _ => none

/-- pd.to_numeric(cell, errors=coerce) on one cell: numbers pass
through, strings parse or become NaN, nulls stay null, other objects
coerce to NaN. -/
def toNumericCell : Cell → Cell
  | none => none
  | some (Val.num q) => some (Val.num q)
  | some (Val.str s) => (parseRat s).map Val.num
  | some (Val.time _) => none

/-- One column of DataProcessor._convert_data_types
(utils/data_processor.py lines 118-134): provenance columns are skipped;
an object column is replaced by its coerced values and flagged numeric
when the coerced column is not entirely NaN; the int/float downcasts
preserve the values and the numeric flag. -/
def convertColPair (name : String) (d : Dtype) (cells : List Cell) : Dtype × List Cell :=
  if name ∈ provNames then (d, cells)
  else
    match d with
    | Dtype.objT =>
        let nc := cells.map toNumericCell
        if nc.all (fun c => c.isNone) then (d, cells) else (Dtype.numT, nc)
    | d => (d, cells)

def convertedCols (df : DF) : List (Dtype × List Cell) :=
  (List.range df.header.length).map (fun j =>
    convertColPair (df.header.getD j "") (df.dtypes.getD j Dtype.objT) (colCells df.rows j))

/-- DataProcessor._convert_data_types lifted to the whole table. -/
def convert_data_types (df : DF) : DF :=
  { df with
    dtypes := (convertedCols df).map Prod.fst,
    rows := (List.range df.rows.length).map
      (fun i => (convertedCols df).map (fun p => p.2.getD i none)) }

/-- The four provenance cells appended to every row by clean_data
(utils/data_processor.py lines 82-85): source file basename, batch id,
and the results of the two datetime.now() calls. -/
def stampCells (batchId : String) (t1 t2 : Nat) : List Cell :=
  [some (Val.str (basename Config.DOWNLOAD_PATH)), some (Val.str batchId),
   some (Val.time t1), some (Val.time t2)]

/-- Provenance stamping: append the four provenance columns, every row
getting the same batch id and the same two timestamps. -/
def stampDF (batchId : String) (t1 t2 : Nat) (df : DF) : DF :=
  { header := df.header ++ provNames,
    dtypes := df.dtypes ++ [Dtype.objT, Dtype.objT, Dtype.dtT, Dtype.dtT],
    rows := df.rows.map (fun r => r ++ stampCells batchId t1 t2) }

/-- DataProcessor.clean_data (utils/data_processor.py lines 68-92):
return empty input unchanged; otherwise dedup, impute, coerce types and
stamp provenance.  batchId is the uuid4 token drawn in __init__; t1 and
t2 are the values of the two datetime.now() calls. -/
def clean_data (batchId : String) (t1 t2 : Nat) (df : DF) : DF :=
  if df.isEmptyDF then df
  else stampDF batchId t1 t2 (convert_data_types (handle_missing_values (remove_duplicates df)))

structure Metrics where
  total_records : Nat
  valid_records : Nat
  null_records : Nat
  duplicate_records : Nat
deriving DecidableEq

/-- DataProcessor.validate_data (utils/data_processor.py lines 136-145):
total rows, rows surviving dropna, total null cells, and rows minus
distinct rows of the given table. -/
def validate_data (df : DF) : Metrics :=
  { total_records := df.rows.length,
    valid_records := (df.rows.filter (fun r => r.all (fun c => c.isSome))).length,
    null_records := (df.rows.map (fun r => r.countP (fun c => c.isNone))).sum,
    duplicate_records := df.rows.length - (dedupFirst df.rows).length }

/-- Auxiliary for the batched insert loop: slices rows[i : i + b] for
i = 0, b, 2b, ... (the fuel, at least rows.length when b is positive,
only bounds the recursion and does not affect the result). -/
def batchSlicesAux {α : Type} : Nat → Nat → List α → List (List α)
  | 0, _, _ => []
  | _ + 1, _, [] => []
  | fuel + 1, b, x :: xs => (x :: xs).take b :: batchSlicesAux fuel b ((x :: xs).drop b)

/-- The successive batches submitted by DatabaseManager.insert_dataframe
(utils/database.py lines 128-153): df.iloc[i : i + batch_size] for i in
range(0, len(df), batch_size). -/
def batchSlices {α : Type} (b : Nat) (rows : List α) : List (List α) :=
  batchSlicesAux rows.length b rows

/-- DatabaseManager.insert_dataframe return value: total_inserted, the
sum of the sizes of the inserted batches. -/
def insert_dataframe (rows : List (List Cell)) (b : Nat) : Nat :=
  ((batchSlices b rows).map List.length).sum

/-- Outcome of the pandas read_csv chunk iteration handed to
read_csv_in_chunks: either the list of parsed chunks or a parse error. -/
inductive ParseResult where
  | ok (chunks : List (List (List Cell)))
  | err (msg : String)
deriving DecidableEq

/-- DataProcessor.read_csv_in_chunks (utils/data_processor.py lines
40-66): a parse error is re-raised; with no chunks the empty DataFrame
is returned (the "no data" outcome); otherwise the chunks are
concatenated in order. -/
def read_csv_in_chunks (header : List String) (dtypes : List Dtype) (p : ParseResult) :
    Except String DF :=
  match p with
  | ParseResult.err m => Except.error m
  | ParseResult.ok chunks =>
      if chunks.isEmpty then Except.ok { header := [], dtypes := [], rows := [] }
      else Except.ok { header := header, dtypes := dtypes, rows := chunks.flatten }

/-- DataProcessingPipeline._read_and_process_data (data_processor.py
lines 78-90): call the reader and raise "No data found in CSV file"
when the returned frame is empty. -/
def read_and_process_data (header : List String) (dtypes : List Dtype) (p : ParseResult) :
    Except String DF :=
  match read_csv_in_chunks header dtypes p with
  | Except.error m => Except.error m
  | Except.ok df => if df.isEmptyDF then Except.error "No data found in CSV file" else Except.ok df

structure FetchResult where
  networkCalled : Bool
  success : Bool
deriving DecidableEq

/-- DataProcessor.download_file (utils/data_processor.py lines 19-38):
always performs the network request; netOk abstracts whether the
transfer succeeds. -/
def download_file (netOk : Bool) : FetchResult :=
  { networkCalled := true, success := netOk }

/-- DataProcessingPipeline._download_file (data_processor.py lines
59-76): if the destination path exists, return success without calling
download_file; otherwise delegate to download_file. -/
def download_file_step (fileExists : Bool) (netOk : Bool) : FetchResult :=
  if fileExists then { networkCalled := false, success := true }
  else download_file netOk

/-- The raw outcome of an audit INSERT before the surrounding
try/except: dbOk abstracts whether the database write succeeds. -/
def dbWrite (dbOk : Bool) : Except String Unit :=
  if dbOk then Except.ok () else Except.error "database error"

/-- DatabaseManager.log_processing_status (utils/database.py lines
155-180): the INSERT of the given status row runs inside try/except; a
failure is logged and swallowed, so the call itself never raises. -/
def log_processing_status (dbOk : Bool) (status : String) : Except String Unit :=
  match dbWrite dbOk, status with
  | Except.ok _, _ => Except.ok ()
  | Except.error _, _ => Except.ok ()

/-- DatabaseManager.log_data_quality_metrics (utils/database.py lines
182-205): the INSERT of the given metrics snapshot runs inside
try/except, same shape, never raises. -/
def log_data_quality_metrics (dbOk : Bool) (snapshot : Metrics) : Except String Unit :=
  match dbWrite dbOk, snapshot with
  | Except.ok _, _ => Except.ok ()
  | Except.error _, _ => Except.ok ()

/-- DataProcessingPipeline._store_data_in_database (data_processor.py
lines 116-132): insert_dataframe raises on a database failure
(abstracted by storeOk), otherwise reports the inserted row count. -/
def store_data_step (storeOk : Bool) (df : DF) : Except String Nat :=
  if storeOk then Except.ok (insert_dataframe df.rows Config.BATCH_SIZE)
  else Except.error "Failed to insert data"

/-- The environment a single pipeline run executes against. -/
structure PipelineInput where
  fileExists : Bool
  netOk : Bool
  header : List String
  dtypes : List Dtype
  parse : ParseResult
  storeOk : Bool
  auditOk : Bool
  batchId : String
  t1 : Nat
  t2 : Nat

/-- DataProcessingPipeline.run_pipeline (data_processor.py lines 26-57).
First component: the value returned to the caller, or the re-raised
error.  Second component: the statuses of the processing_log writes
attempted ("completed" from step 6, "failed" from the except branch via
_log_error).  Any exception in the try body reaches the except branch,
which attempts a failed Processing Log Entry and re-raises. -/
def run_pipeline (inp : PipelineInput) : Except String Nat × List String :=
  if (download_file_step inp.fileExists inp.netOk).success = false then
    (Except.error "Failed to download CSV file", ["failed"])
  else
    match read_and_process_data inp.header inp.dtypes inp.parse with
    | Except.error m => (Except.error m, ["failed"])
    | Except.ok df =>
      if df.isEmptyDF then (Except.error "No data found in CSV file", ["failed"])
      else
        match log_data_quality_metrics inp.auditOk
            (validate_data (clean_data inp.batchId inp.t1 inp.t2 df)) with
        | Except.error m => (Except.error m, ["failed"])
        | Except.ok _ =>
          match store_data_step inp.storeOk (clean_data inp.batchId inp.t1 inp.t2 df) with
          | Except.error m => (Except.error m, ["failed"])
          | Except.ok inserted =>
            match log_processing_status inp.auditOk "completed" with
            | Except.error m => (Except.error m, ["failed"])
            | Except.ok _ => (Except.ok inserted, ["completed"])

/-!
Concrete inputs used by counterexamples and witnesses.
-/

/-- The spec scenario source [a:1 b:NaN, a:1 b:NaN, a:2 b:"x"] as pandas
reads it: column a is int64, column b is object with the empty strings
read as NaN. -/
def exDF : DF :=
  { header := ["a", "b"],
    dtypes := [Dtype.numT, Dtype.objT],
    rows := [[some (Val.num 1), none], [some (Val.num 1), none],
             [some (Val.num 2), some (Val.str "x")]] }

/-- A one-row table with no null cell. -/
def exNoNullDF : DF :=
  { header := ["a", "b"],
    dtypes := [Dtype.numT, Dtype.objT],
    rows := [[some (Val.num 1), some (Val.str "x")]] }

/-- A table with columns but zero rows. -/
def exZeroRowsDF : DF :=
  { header := ["a", "b"], dtypes := [Dtype.numT, Dtype.objT], rows := [] }

/-- The Loader scenario input: a table of 2500 cleaned rows. -/
def c6rows : List (List Cell) := List.replicate 2500 []

/-- A run in which the download step fails. -/
def inpFail : PipelineInput :=
  { fileExists := false, netOk := false, header := [], dtypes := [],
    parse := ParseResult.ok [], storeOk := true, auditOk := true,
    batchId := "B", t1 := 0, t2 := 0 }

/-!
Helper lemmas.
-/

theorem handle_missing_values_rows_length (df : DF) :
    (handle_missing_values df).rows.length = df.rows.length := by
  simp [handle_missing_values]

theorem convert_data_types_rows_length (df : DF) :
    (convert_data_types df).rows.length = df.rows.length := by
  simp [convert_data_types]

theorem zipWith_imputeCell_eq (fv : List (Option Val)) (r : List Cell)
    (hlen : r.length ≤ fv.length) (hs : ∀ c ∈ r, c.isSome = true) :
    fv.zipWith imputeCell r = r := by
  induction r generalizing fv with
  | nil => cases fv <;> rfl
  | cons c cs ih =>
    cases fv with
    | nil => simp at hlen
    | cons f fs =>
      have hc : c.isSome = true := hs c (by simp)
      obtain ⟨v, hv⟩ := Option.isSome_iff_exists.mp hc
      have htail : fs.zipWith imputeCell cs = cs :=
        ih fs (by simpa using hlen) (fun x hx => hs x (by simp [hx]))
      simp [List.zipWith, hv, imputeCell, htail]

theorem fillVals_length (df : DF) : (fillVals df).length = df.header.length := by
  simp [fillVals]

theorem list_map_eq_self {α : Type} (f : α → α) (l : List α)
    (h : ∀ x ∈ l, f x = x) : l.map f = l := by
  induction l with
  | nil => rfl
  | cons x xs ih =>
    simp only [List.map_cons, h x (by simp), List.cons.injEq, true_and]
    exact ih (fun y hy => h y (by simp [hy]))

/-!
The claims.
-/

/-- C10: clean_data given a table with zero rows returns the input
unchanged: no deduplication, imputation or coercion runs and no
provenance column is appended (utils/data_processor.py lines 68-70). -/
theorem clean_empty_unchanged (batchId : String) (t1 t2 : Nat) (df : DF)
    (h : df.rows = []) : clean_data batchId t1 t2 df = df := by
  have he : df.isEmptyDF = true := by simp [DF.isEmptyDF, h]
  simp [clean_data, he]

theorem clean_empty_unchanged_witness :
    exZeroRowsDF.rows = [] ∧ clean_data "B" 0 0 exZeroRowsDF = exZeroRowsDF :=
  ⟨rfl, clean_empty_unchanged "B" 0 0 exZeroRowsDF rfl⟩

/-- C9: the missing-value imputation step is idempotent: on a
rectangular table with no null cell, handle_missing_values returns the
table unchanged. -/
theorem imputation_idempotent_no_nulls (df : DF)
    (hrect : ∀ r ∈ df.rows, r.length = df.header.length)
    (hnonull : ∀ r ∈ df.rows, ∀ c ∈ r, c.isSome = true) :
    handle_missing_values df = df := by
  have hrows : df.rows.map (fun r => (fillVals df).zipWith imputeCell r) = df.rows := by
    apply list_map_eq_self
    intro r hr
    exact zipWith_imputeCell_eq (fillVals df) r
      (by rw [fillVals_length]; exact (hrect r hr).le) (hnonull r hr)
  cases df with
  | mk header dtypes rows =>
    simpa [handle_missing_values] using hrows

theorem imputation_idempotent_no_nulls_witness :
    (∀ r ∈ exNoNullDF.rows, r.length = exNoNullDF.header.length) ∧
    (∀ r ∈ exNoNullDF.rows, ∀ c ∈ r, c.isSome = true) ∧
    handle_missing_values exNoNullDF = exNoNullDF :=
  ⟨by decide, by decide,
    imputation_idempotent_no_nulls exNoNullDF (by decide) (by decide)⟩

/-- C7: when the destination path already exists, the pipeline download
step performs no network call and reports success immediately, for
either outcome the network would have had (data_processor.py lines
59-76). -/
theorem fetch_skip_when_path_present (netOk : Bool) :
    download_file_step true netOk = { networkCalled := false, success := true } ∧
    (download_file_step true netOk).networkCalled = false ∧
    (download_file_step true netOk).success = true :=
  ⟨rfl, rfl, rfl⟩

/-- C1 counterexample: for the specified source, duplicate_records of
the validator (which runs on the cleaned batch) is 0, not the raw-table
dedup delta 1: validate_data counts duplicates inside its input, and
clean_data has already removed them. -/
theorem validate_dup_not_raw_delta :
    (validate_data (clean_data "B" 0 1 exDF)).duplicate_records ≠
      exDF.rows.length - (dedupFirst exDF.rows).length ∧
    exDF.rows.length - (dedupFirst exDF.rows).length = 1 ∧
    (validate_data (clean_data "B" 0 1 exDF)).duplicate_records = 0 := by
  refine ⟨?_, by decide, by decide⟩
  decide

/-- C1 amended: duplicate_records equals the duplicate count within the
table the validator is given (rows minus distinct rows of the cleaned
batch), not the rows removed from the raw table; for the spec scenario
the metrics of the cleaned batch are total=2, valid=2, null=0,
duplicates=0. -/
theorem validate_dup_within_input :
    (∀ df : DF, (validate_data df).duplicate_records =
        df.rows.length - (dedupFirst df.rows).length) ∧
    validate_data (clean_data "B" 0 1 exDF) =
      { total_records := 2, valid_records := 2, null_records := 0, duplicate_records := 0 } :=
  ⟨fun _ => rfl, by decide⟩

/-- C2 counterexample: on the non-provenance object column ["1","abc"]
the coercion adopts the numeric type although the whole column does not
convert, and the cell "abc", non-null before coercion, becomes null. -/
theorem convert_adopts_with_residue :
    ("a" ∉ provNames) ∧
    (convertColPair "a" Dtype.objT [some (Val.str "1"), some (Val.str "abc")]).1 = Dtype.numT ∧
    (([some (Val.str "1"), some (Val.str "abc")] : List Cell).getD 1 none).isSome = true ∧
    ((convertColPair "a" Dtype.objT
        [some (Val.str "1"), some (Val.str "abc")]).2.getD 1 none).isSome = false := by
  refine ⟨by decide, by decide, by decide, by decide⟩

/-- C2 amended: for a non-provenance object column the coercion adopts
the numeric type iff at least one cell coerces to a number (the coerced
column is not entirely NaN), and when it adopts, the column becomes
exactly the coerced cells, so cells that fail to parse become null. -/
theorem convert_adopt_iff_some_parses (name : String) (cells : List Cell)
    (h : name ∉ provNames) :
    ((convertColPair name Dtype.objT cells).1 = Dtype.numT ↔
      (cells.map toNumericCell).all (fun c => c.isNone) = false) ∧
    ((convertColPair name Dtype.objT cells).1 = Dtype.numT →
      (convertColPair name Dtype.objT cells).2 = cells.map toNumericCell) := by
  unfold convertColPair
  simp only [if_neg h]
  by_cases hall : (cells.map toNumericCell).all (fun c => c.isNone) = true
  · simp [hall]
  · simp only [Bool.not_eq_true] at hall
    simp [hall]

theorem convert_adopt_iff_some_parses_witness :
    ("a" ∉ provNames) ∧
    (((convertColPair "a" Dtype.objT [some (Val.str "1"), some (Val.str "abc")]).1 = Dtype.numT ↔
      (([some (Val.str "1"), some (Val.str "abc")] : List Cell).map toNumericCell).all
        (fun c => c.isNone) = false) ∧
    ((convertColPair "a" Dtype.objT [some (Val.str "1"), some (Val.str "abc")]).1 = Dtype.numT →
      (convertColPair "a" Dtype.objT [some (Val.str "1"), some (Val.str "abc")]).2 =
        ([some (Val.str "1"), some (Val.str "abc")] : List Cell).map toNumericCell)) :=
  ⟨by decide, convert_adopt_iff_some_parses "a" [some (Val.str "1"), some (Val.str "abc")]
    (by decide)⟩

/-- C5 counterexample: with the two datetime.now() calls of clean_data
returning 0 and then 1, the created_at and updated_at cells of the
cleaned rows differ, so the two timestamp columns do not hold identical
timestamps. -/
theorem stamp_timestamps_can_differ :
    ¬ (∀ r ∈ (clean_data "B" 0 1 exDF).rows,
        r.getD (r.length - 2) none = r.getD (r.length - 1) none) := by
  decide

/-- C5 amended: every row of a Cleaned Record Batch ends in the same
four provenance cells: the source file basename, the run batch
identifier, and the results of the two datetime.now() calls, which are
uniform across rows but come from two separate clock reads, so
created_at and updated_at need not be equal. -/
theorem stamp_uniform_per_run (batchId : String) (t1 t2 : Nat) (df : DF)
    (h : df.isEmptyDF = false) (r : List Cell)
    (hr : r ∈ (clean_data batchId t1 t2 df).rows) :
    ∃ r0, r = r0 ++ [some (Val.str (basename Config.DOWNLOAD_PATH)),
      some (Val.str batchId), some (Val.time t1), some (Val.time t2)] := by
  unfold clean_data at hr
  rw [h] at hr
  simp only [Bool.false_eq_true, if_false, stampDF, List.mem_map] at hr
  obtain ⟨r0, _, hr0⟩ := hr
  exact ⟨r0, hr0.symm⟩

theorem stamp_uniform_per_run_mem :
    ((clean_data "B" 0 1 exDF).rows.getD 0 []) ∈ (clean_data "B" 0 1 exDF).rows := by
  have h : 0 < (clean_data "B" 0 1 exDF).rows.length := by decide
  rw [List.getD_eq_getElem _ [] h]
  exact List.getElem_mem h

theorem stamp_uniform_per_run_witness :
    exDF.isEmptyDF = false ∧
    ((clean_data "B" 0 1 exDF).rows.getD 0 []) ∈ (clean_data "B" 0 1 exDF).rows ∧
    ∃ r0, (clean_data "B" 0 1 exDF).rows.getD 0 [] =
      r0 ++ [some (Val.str (basename Config.DOWNLOAD_PATH)),
        some (Val.str "B"), some (Val.time 0), some (Val.time 1)] :=
  ⟨rfl, stamp_uniform_per_run_mem,
    stamp_uniform_per_run "B" 0 1 exDF rfl _ stamp_uniform_per_run_mem⟩

/-- C4: for every table that is not pandas-empty, the cleaned batch has
exactly the rows remaining after deduplication, and neither the
imputation step nor the type-coercion step changes the row count. -/
theorem clean_row_count_eq_dedup (batchId : String) (t1 t2 : Nat) (df df2 : DF)
    (h : df.isEmptyDF = false) :
    (clean_data batchId t1 t2 df).rows.length = (dedupFirst df.rows).length ∧
    (handle_missing_values df2).rows.length = df2.rows.length ∧
    (convert_data_types df2).rows.length = df2.rows.length := by
  refine ⟨?_, handle_missing_values_rows_length df2, convert_data_types_rows_length df2⟩
  unfold clean_data
  rw [h]
  simp [stampDF, convert_data_types, handle_missing_values, remove_duplicates]

theorem clean_row_count_eq_dedup_witness :
    exDF.isEmptyDF = false ∧
    ((clean_data "B" 0 1 exDF).rows.length = (dedupFirst exDF.rows).length ∧
    (handle_missing_values exDF).rows.length = exDF.rows.length ∧
    (convert_data_types exDF).rows.length = exDF.rows.length) :=
  ⟨rfl, clean_row_count_eq_dedup "B" 0 1 exDF exDF rfl⟩

/-- C3: when the parsed file holds zero data rows, read_csv_in_chunks
returns an empty DataFrame (the distinguishable "no data" outcome)
rather than raising, and the orchestrator step turns exactly that
outcome into the failure "No data found in CSV file". -/
theorem reader_empty_distinct_outcome (header : List String) (dtypes : List Dtype)
    (chunks : List (List (List Cell))) (m : String) (h : chunks.flatten = []) :
    (∃ df, read_csv_in_chunks header dtypes (ParseResult.ok chunks) = Except.ok df ∧
      df.rows = []) ∧
    read_csv_in_chunks header dtypes (ParseResult.ok chunks) ≠ Except.error m ∧
    read_and_process_data header dtypes (ParseResult.ok chunks) =
      Except.error "No data found in CSV file" := by
  by_cases hc : chunks.isEmpty = true
  · refine ⟨⟨{ header := [], dtypes := [], rows := [] }, ?_, rfl⟩, ?_, ?_⟩ <;>
      simp [read_csv_in_chunks, read_and_process_data, hc, DF.isEmptyDF]
  · refine ⟨⟨{ header := header, dtypes := dtypes, rows := [] }, ?_, rfl⟩, ?_, ?_⟩ <;>
      simp [read_csv_in_chunks, read_and_process_data, hc, h, DF.isEmptyDF]

theorem reader_empty_distinct_outcome_witness :
    ([] : List (List (List Cell))).flatten = [] ∧
    ((∃ df, read_csv_in_chunks [] [] (ParseResult.ok []) = Except.ok df ∧ df.rows = []) ∧
    read_csv_in_chunks [] [] (ParseResult.ok []) ≠ Except.error "parse failure" ∧
    read_and_process_data [] [] (ParseResult.ok []) =
      Except.error "No data found in CSV file") :=
  ⟨rfl, reader_empty_distinct_outcome [] [] [] "parse failure" rfl⟩

theorem batchSlicesAux_lengths {α : Type} (b : Nat) (hb : 0 < b) :
    ∀ (fuel : Nat) (rows : List α), rows.length ≤ fuel →
      (batchSlicesAux fuel b rows).map List.length =
        List.replicate (rows.length / b) b ++
          (if rows.length % b = 0 then [] else [rows.length % b]) := by
  intro fuel
  induction fuel with
  | zero =>
    intro rows hr
    have : rows = [] := List.eq_nil_of_length_eq_zero (Nat.le_zero.mp hr)
    subst this
    simp [batchSlicesAux, Nat.zero_div, Nat.zero_mod]
  | succ n ih =>
    intro rows hr
    cases rows with
    | nil => simp [batchSlicesAux, Nat.zero_div, Nat.zero_mod]
    | cons x xs =>
      simp only [batchSlicesAux, List.map_cons]
      by_cases hle : (x :: xs).length ≤ b
      · have hdrop : (x :: xs).drop b = [] := List.drop_eq_nil_of_le hle
        have htake : ((x :: xs).take b).length = (x :: xs).length := by
          rw [List.length_take]; omega
        rw [hdrop, htake]
        have hrec : (batchSlicesAux n b ([] : List α)).map List.length = [] := by
          cases n <;> simp [batchSlicesAux]
        rw [hrec]
        rcases Nat.lt_or_ge (x :: xs).length b with hlt | hge
        · have h1 : (x :: xs).length / b = 0 := Nat.div_eq_of_lt hlt
          have h2 : (x :: xs).length % b = (x :: xs).length := Nat.mod_eq_of_lt hlt
          have h3 : (x :: xs).length ≠ 0 := by simp
          rw [h1, h2, if_neg h3]
          simp
        · have heq : (x :: xs).length = b := le_antisymm hle hge
          rw [heq, Nat.div_self hb, Nat.mod_self]
          simp
      · have hlt : b < (x :: xs).length := Nat.lt_of_not_le hle
        have htake : ((x :: xs).take b).length = b := by
          rw [List.length_take]; omega
        have hdroplen : ((x :: xs).drop b).length = (x :: xs).length - b := by
          rw [List.length_drop]
        have hrec := ih ((x :: xs).drop b) (by rw [hdroplen]; simp at hr ⊢; omega)
        rw [htake, hrec, hdroplen]
        have hsplit : (x :: xs).length = ((x :: xs).length - b) + b := by omega
        rw [hsplit, Nat.add_div_right _ hb, Nat.add_mod_right]
        rw [List.replicate_succ]
        simp

theorem batchSlices_lengths {α : Type} (b : Nat) (rows : List α) (hb : 0 < b) :
    (batchSlices b rows).map List.length =
      List.replicate (rows.length / b) b ++
        (if rows.length % b = 0 then [] else [rows.length % b]) :=
  batchSlicesAux_lengths b hb rows.length rows le_rfl

theorem ceilDiv_split (n b : Nat) (hb : 0 < b) :
    (n + b - 1) / b = n / b + (if n % b = 0 then 0 else 1) := by
  obtain ⟨q, r, hrb, hn⟩ : ∃ q r, r < b ∧ n = b * q + r :=
    ⟨n / b, n % b, Nat.mod_lt _ hb, (Nat.div_add_mod n b).symm⟩
  subst hn
  have hmod : (b * q + r) % b = r := by rw [Nat.mul_add_mod, Nat.mod_eq_of_lt hrb]
  have hdiv : (b * q + r) / b = q + r / b := Nat.mul_add_div hb q r
  rw [hmod, hdiv, Nat.div_eq_of_lt hrb]
  by_cases h0 : r = 0
  · subst h0
    have h1 : b * q + 0 + b - 1 = b * q + (b - 1) := by omega
    rw [if_pos rfl, h1, Nat.mul_add_div hb, Nat.div_eq_of_lt (by omega)]
  · have h1 : b * q + r + b - 1 = b * (q + 1) + (r - 1) := by
      rw [Nat.mul_add, Nat.mul_one]; omega
    rw [if_neg h0, h1, Nat.mul_add_div hb, Nat.div_eq_of_lt (by omega)]

theorem insert_dataframe_total (rows : List (List Cell)) (b : Nat) (hb : 0 < b) :
    insert_dataframe rows b = rows.length := by
  unfold insert_dataframe
  rw [batchSlices_lengths b rows hb, List.sum_append, List.sum_replicate, smul_eq_mul]
  by_cases h : rows.length % b = 0
  · rw [if_pos h]
    simp only [List.sum_nil, Nat.add_zero]
    exact Nat.div_mul_cancel (Nat.dvd_of_mod_eq_zero h)
  · rw [if_neg h]
    simp only [List.sum_cons, List.sum_nil, Nat.add_zero]
    have h2 := Nat.div_add_mod rows.length b
    rw [Nat.mul_comm]
    omega

theorem batchSlices_count {α : Type} (b : Nat) (rows : List α) (hb : 0 < b) :
    (batchSlices b rows).length = (rows.length + b - 1) / b := by
  have h1 : (batchSlices b rows).length = ((batchSlices b rows).map List.length).length :=
    (List.length_map _ _).symm
  rw [h1, batchSlices_lengths b rows hb, List.length_append, List.length_replicate,
    ceilDiv_split rows.length b hb]
  by_cases h : rows.length % b = 0 <;> simp [h]

/-- C6: for n rows and batch size b greater than 0 the Loader performs
exactly ceil(n over b) insert operations, every batch of size b with the
final remainder batch of size n mod b, and reports n rows inserted; at
2500 rows with batch size 1000 that is three inserts of sizes 1000,
1000, 500 with reported total 2500. -/
theorem insert_batches_sizes_and_total (rows : List (List Cell)) (b : Nat) (hb : 0 < b) :
    (batchSlices b rows).map List.length =
      List.replicate (rows.length / b) b ++
        (if rows.length % b = 0 then [] else [rows.length % b]) ∧
    (batchSlices b rows).length = (rows.length + b - 1) / b ∧
    insert_dataframe rows b = rows.length ∧
    (batchSlices 1000 c6rows).map List.length = [1000, 1000, 500] ∧
    insert_dataframe c6rows 1000 = 2500 := by
  refine ⟨batchSlices_lengths b rows hb, batchSlices_count b rows hb,
    insert_dataframe_total rows b hb, ?_, ?_⟩
  · have h := batchSlices_lengths 1000 c6rows (by norm_num)
    have hlen : c6rows.length = 2500 := by
      rw [show c6rows = List.replicate 2500 ([] : List Cell) from rfl, List.length_replicate]
    rw [hlen] at h
    norm_num at h
    rw [h]
    decide
  · have h := insert_dataframe_total c6rows 1000 (by norm_num)
    rw [h, show c6rows = List.replicate 2500 ([] : List Cell) from rfl, List.length_replicate]

theorem insert_batches_sizes_and_total_witness :
    0 < 1000 ∧
    ((batchSlices 1000 c6rows).map List.length =
      List.replicate (c6rows.length / 1000) 1000 ++
        (if c6rows.length % 1000 = 0 then [] else [c6rows.length % 1000]) ∧
    (batchSlices 1000 c6rows).length = (c6rows.length + 1000 - 1) / 1000 ∧
    insert_dataframe c6rows 1000 = c6rows.length ∧
    (batchSlices 1000 c6rows).map List.length = [1000, 1000, 500] ∧
    insert_dataframe c6rows 1000 = 2500) :=
  ⟨by norm_num, insert_batches_sizes_and_total c6rows 1000 (by norm_num)⟩

theorem log_processing_status_never_raises (dbOk : Bool) (status : String) :
    log_processing_status dbOk status = Except.ok () := by
  cases dbOk <;> rfl

theorem log_data_quality_metrics_never_raises (dbOk : Bool) (snapshot : Metrics) :
    log_data_quality_metrics dbOk snapshot = Except.ok () := by
  cases dbOk <;> rfl

theorem run_pipeline_writes (inp : PipelineInput) :
    (run_pipeline inp).2 = ["failed"] ∨
      ∃ n, run_pipeline inp = (Except.ok n, ["completed"]) := by
  unfold run_pipeline
  split
  · left; rfl
  · split
    · left; rfl
    · split
      · left; rfl
      · split
        · left; rfl
        · split
          · left; rfl
          · split
            · left; rfl
            · right; exact ⟨_, rfl⟩

/-- C8: the audit writes log_processing_status and
log_data_quality_metrics swallow their database failure and never
re-raise, the pipeline outcome is therefore the same whether audit
writes succeed or fail, and a run that re-raises an error to the caller
has attempted exactly one failed Processing Log Entry. -/
theorem audit_failure_nonfatal (inp inp2 : PipelineInput) (dbOk : Bool) (m : String)
    (snapshot : Metrics) (hm : (run_pipeline inp2).1 = Except.error m) :
    log_processing_status dbOk "failed" = Except.ok () ∧
    log_data_quality_metrics dbOk snapshot = Except.ok () ∧
    (run_pipeline { inp with auditOk := true }).1 =
      (run_pipeline { inp with auditOk := false }).1 ∧
    (run_pipeline inp2).2 = ["failed"] := by
  refine ⟨log_processing_status_never_raises dbOk "failed",
    log_data_quality_metrics_never_raises dbOk snapshot, ?_, ?_⟩
  · simp only [run_pipeline, log_processing_status_never_raises,
      log_data_quality_metrics_never_raises]
  · rcases run_pipeline_writes inp2 with h | ⟨n, hn⟩
    · exact h
    · rw [hn] at hm
      simp at hm

theorem audit_failure_nonfatal_witness :
    (run_pipeline inpFail).1 = Except.error "Failed to download CSV file" ∧
    (log_processing_status false "failed" = Except.ok () ∧
    log_data_quality_metrics false (validate_data exDF) = Except.ok () ∧
    (run_pipeline { inpFail with auditOk := true }).1 =
      (run_pipeline { inpFail with auditOk := false }).1 ∧
    (run_pipeline inpFail).2 = ["failed"]) :=
  ⟨rfl, audit_failure_nonfatal inpFail inpFail false "Failed to download CSV file"
    (validate_data exDF) rfl⟩
